import Mathlib

/-!
Verification of the `dangerCheck` command-risk classifier from
`src/tools.ts` of the `cf_ai_linuxhelper` repository.

The classifier keeps a fixed, ordered table of danger signatures
(a JavaScript regular expression, a risk level and a reason string),
filters the table by testing each pattern against the input command,
and maps the surviving entries to risk findings.  The guidance string
is a fixed template chosen by whether any finding was produced.

JavaScript regular expressions are embedded as a small regex datatype
with Brzozowski-derivative matching; `RegExp.test` performs an
unanchored search, modelled by `test` below, which asks whether the
regex matches a prefix of any suffix of the input.  None of the
patterns in the table use anchors, capture-group semantics, or flags,
so derivative matching computes exactly the boolean that `.test`
returns.
-/

/-- Regular expressions over characters: empty word, a character class
given by a boolean predicate, concatenation, alternation and Kleene
star.  The failing regex is encoded as the class that accepts no
character. -/
inductive RE where
  | eps : RE
  | cls : (Char → Bool) → RE
  | cat : RE → RE → RE
  | alt : RE → RE → RE
  | star : RE → RE

/-- Does the regex accept the empty word? -/
def nullable : RE → Bool
  | .eps => true
  | .cls _ => false
  | .cat a b => nullable a && nullable b
  | .alt a b => nullable a || nullable b
  | .star _ => true

/-- Brzozowski derivative of a regex by one character. -/
def derivRE : RE → Char → RE
  | .eps, _ => .cls (fun _ => false)
  | .cls p, c => if p c then .eps else .cls (fun _ => false)
  | .cat a b, c =>
      if nullable a then .alt (.cat (derivRE a c) b) (derivRE b c)
      else .cat (derivRE a c) b
  | .alt a b, c => .alt (derivRE a c) (derivRE b c)
  | .star a, c => .cat (derivRE a c) (.star a)

/-- Does the regex match some prefix of the character list? -/
def matchPre (r : RE) : List Char → Bool
  | [] => nullable r
  | c :: cs => nullable r || matchPre (derivRE r c) cs

/-- Unanchored search, the semantics of JavaScript `RegExp.test`:
the regex matches a prefix of some suffix of the input. -/
def test (r : RE) : List Char → Bool
  | [] => matchPre r []
  | c :: cs => matchPre r (c :: cs) || test r cs

/-- The set of characters matched by `\s` in a JavaScript regex. -/
def jsSpace (c : Char) : Bool :=
  let n := c.toNat
  n == 0x20 || n == 0x9 || n == 0xa || n == 0xb || n == 0xc || n == 0xd ||
  n == 0xa0 || n == 0x1680 || (decide (0x2000 ≤ n) && decide (n ≤ 0x200a)) ||
  n == 0x2028 || n == 0x2029 || n == 0x202f || n == 0x205f ||
  n == 0x3000 || n == 0xfeff

/-- The set of characters matched by `.` in a JavaScript regex without
the `s` flag: everything but the four line terminators. -/
def jsDot (c : Char) : Bool :=
  let n := c.toNat
  !(n == 0xa || n == 0xd || n == 0x2028 || n == 0x2029)

/-- Regex matching one given character. -/
def chr (c : Char) : RE := .cls (fun d => d == c)

/-- Regex matching a literal string. -/
def strRE (s : String) : RE := s.data.foldr (fun c r => .cat (chr c) r) .eps

/-- Regex sequencing a list of regexes. -/
def seqRE (l : List RE) : RE := l.foldr RE.cat .eps

/-- One-or-more: `r` followed by `r*`. -/
def plus (r : RE) : RE := .cat r (.star r)

/-- Optional: `r` or the empty word. -/
def opt (r : RE) : RE := .alt r .eps

/-- Whitespace class, `\s`. -/
def ws : RE := .cls jsSpace

/-- Any-character class, `.` without the `s` flag. -/
def dot : RE := .cls jsDot

/-- Pattern `/rm\s+-rf?\s+\//`. -/
def reRmRoot : RE :=
  seqRE [strRE "rm", plus ws, strRE "-r", opt (chr 'f'), plus ws, chr '/']

/-- Pattern `/rm\s+-rf/`. -/
def reRmRf : RE := seqRE [strRE "rm", plus ws, strRE "-rf"]

/-- Pattern `/mkfs/`. -/
def reMkfs : RE := strRE "mkfs"

/-- Pattern `/dd\s+.*of=\/dev\//`. -/
def reDd : RE := seqRE [strRE "dd", plus ws, .star dot, strRE "of=/dev/"]

/-- Pattern `/>\s*\/dev\/sd[a-z]/`. -/
def reDevSd : RE :=
  seqRE [chr '>', .star ws, strRE "/dev/sd",
    .cls (fun c => decide (0x61 ≤ c.toNat) && decide (c.toNat ≤ 0x7a))]

/-- Pattern `/chmod\s+-R\s+777/`. -/
def reChmod : RE := seqRE [strRE "chmod", plus ws, strRE "-R", plus ws, strRE "777"]

/-- Pattern `/chown\s+-R/`. -/
def reChown : RE := seqRE [strRE "chown", plus ws, strRE "-R"]

/-- The fork-bomb pattern `/:\(\)\{\s*:\|:\s*&\s*\};\s*:/` -/
def reFork : RE :=
  seqRE [strRE ":()\x7b", .star ws, strRE ":|:", .star ws, chr '&',
    .star ws, strRE "\x7d;", .star ws, chr ':']

/-- Pattern `/>\s*\/etc\/passwd/`. -/
def reEtcPasswd : RE := seqRE [chr '>', .star ws, strRE "/etc/passwd"]

/-- Pattern `/curl.*\|\s*(ba)?sh/`. -/
def reCurlSh : RE :=
  seqRE [strRE "curl", .star dot, chr '|', .star ws, opt (strRE "ba"), strRE "sh"]

/-- Pattern `/wget.*\|\s*(ba)?sh/`. -/
def reWgetSh : RE :=
  seqRE [strRE "wget", .star dot, chr '|', .star ws, opt (strRE "ba"), strRE "sh"]

/-- Risk levels of the data model: `enum{low, medium, high, critical}`.
The source stores them as the corresponding lowercase strings. -/
inductive Risk where
  | low : Risk
  | medium : Risk
  | high : Risk
  | critical : Risk
deriving DecidableEq, Repr

/-- The uppercased form, as produced by `risk.toUpperCase()` on the
corresponding string literal. -/
def Risk.upper : Risk → String
  | .low => "LOW"
  | .medium => "MEDIUM"
  | .high => "HIGH"
  | .critical => "CRITICAL"

/-- One entry of the `dangerousPatterns` table. -/
structure DangerSignature where
  pattern : RE
  risk : Risk
  reason : String

/-- One element of the `risks` list: `{risk, reason}`. -/
structure RiskFinding where
  risk : Risk
  reason : String
deriving DecidableEq, Repr

/-- The fixed `dangerousPatterns` table of `dangerCheck`, in source
order. -/
def dangerousPatterns : List DangerSignature :=
  [⟨reRmRoot, .critical, "Deletes root filesystem"⟩,
   ⟨reRmRf, .high, "Recursive force delete without confirmation"⟩,
   ⟨reMkfs, .critical, "Formats filesystem, destroys all data"⟩,
   ⟨reDd, .critical, "Overwrites disk device directly"⟩,
   ⟨reDevSd, .critical, "Overwrites disk device"⟩,
   ⟨reChmod, .high, "Removes all file permissions security"⟩,
   ⟨reChown, .medium, "Recursive ownership change"⟩,
   ⟨reFork, .critical, "Fork bomb - crashes system"⟩,
   ⟨reEtcPasswd, .critical, "Overwrites user database"⟩,
   ⟨reCurlSh, .high, "Executes remote script without review"⟩,
   ⟨reWgetSh, .high, "Executes remote script without review"⟩]

/-- The risks list: `dangerousPatterns.filter((p) => p.pattern.test(command)).map(...)`. -/
def risksOf (command : String) : List RiskFinding :=
  (dangerousPatterns.filter (fun p => test p.pattern command.data)).map
    (fun p => RiskFinding.mk p.risk p.reason)

/-- The instruction template used when at least one risk was found. -/
def dangerText (command : String) (risks : List RiskFinding) : String :=
  "⚠️ DANGER DETECTED in command: " ++ command ++
  "\n\nRisks found:\n" ++
  String.intercalate "\n"
    (risks.map (fun r => "- [" ++ r.risk.upper ++ "] " ++ r.reason)) ++
  "\n\nProvide:\n" ++
  "1. **Why It\x27s Dangerous**: Detailed explanation of what could go wrong\n" ++
  "2. **Safer Alternative**: A safer way to accomplish the same goal\n" ++
  "3. **If You Must Proceed**: Precautions and backup steps\n" ++
  "4. **Recovery Options**: What to do if something goes wrong"

/-- The instruction template used when no risk was found. -/
def safeText (command : String) : String :=
  "✅ No obvious dangers detected in: " ++ command ++
  "\n\nHowever, always:\n" ++
  "1. Understand what a command does before running it\n" ++
  "2. Test with dry-run flags when available\n" ++
  "3. Have backups for important data\n" ++
  "4. Use sudo only when necessary"

/-- The object returned by the `dangerCheck` tool. -/
structure DangerCheckResult where
  type : String
  command : String
  risks : List RiskFinding
  hasDanger : Bool
  instruction : String
deriving DecidableEq, Repr

/-- The `execute` body of the `dangerCheck` tool of `src/tools.ts`. -/
def dangerCheck (command : String) : DangerCheckResult :=
  let risks := risksOf command
  ⟨"danger_check", command, risks, decide (risks.length > 0),
    if risks.length > 0 then dangerText command risks else safeText command⟩

/-- Modelled from the spec: "For each signature in table order, test the
pattern against the input command; if it matches, append a
`RiskFinding{riskLevel, reason}` to the result list."  A recursive scan
over the signature table, used to compare the source's filter-then-map
evaluation with the spec's wording. -/
def specScan : List DangerSignature → String → List RiskFinding
  | [], _ => []
  | s :: rest, cmd =>
      if test s.pattern cmd.data then
        RiskFinding.mk s.risk s.reason :: specScan rest cmd
      else
        specScan rest cmd

theorem filter_map_eq_specScan (sigs : List DangerSignature) (cmd : String) :
    (sigs.filter (fun p => test p.pattern cmd.data)).map
      (fun p => RiskFinding.mk p.risk p.reason) = specScan sigs cmd := by
  induction sigs with
  | nil => rfl
  | cons s rest ih =>
      simp only [List.filter_cons, specScan]
      cases h : test s.pattern cmd.data
      · simpa [h] using ih
      · simpa [h] using ih

theorem matchPre_append (t : List Char) (r : RE) (rest : List Char)
    (h : matchPre r t = true) : matchPre r (t ++ rest) = true := by
  induction t generalizing r with
  | nil =>
      have hn : nullable r = true := h
      cases rest with
      | nil => exact h
      | cons c cs => simp [matchPre, hn]
  | cons c t' ih =>
      simp only [List.cons_append, matchPre, Bool.or_eq_true] at h ⊢
      rcases h with h | h
      · exact Or.inl h
      · exact Or.inr (ih _ h)

theorem test_append (pre : List Char) (r : RE) (s : List Char)
    (h : matchPre r s = true) : test r (pre ++ s) = true := by
  induction pre with
  | nil =>
      cases s with
      | nil => exact h
      | cons c cs =>
          simp only [List.nil_append, test, Bool.or_eq_true]
          exact Or.inl h
  | cons c pre' ih =>
      simp only [List.cons_append, test, Bool.or_eq_true]
      exact Or.inr ih

theorem test_of_middle (r : RE) (pat pre suf : List Char)
    (h : matchPre r pat = true) : test r (pre ++ (pat ++ suf)) = true :=
  test_append pre r (pat ++ suf) (matchPre_append pat r suf h)

theorem finding_mem_risksOf (sig : DangerSignature) (cmd : String)
    (hmem : sig ∈ dangerousPatterns) (ht : test sig.pattern cmd.data = true) :
    RiskFinding.mk sig.risk sig.reason ∈ risksOf cmd := by
  unfold risksOf
  exact List.mem_map_of_mem _ (List.mem_filter.mpr ⟨hmem, ht⟩)

theorem hasDanger_of_mem (cmd : String) (f : RiskFinding)
    (h : f ∈ risksOf cmd) : (dangerCheck cmd).hasDanger = true := by
  have hp : 0 < (risksOf cmd).length :=
    List.length_pos.mpr (List.ne_nil_of_mem h)
  simp [dangerCheck, hp]

/-- Claim C1: for every input command string, the risks list of
`dangerCheck` equals the spec's table-order scan: every signature of the
fixed table is evaluated (no early exit), one `RiskFinding{riskLevel,
reason}` is appended per matching signature, all matching findings are
retained without deduplication, and findings appear in signature-table
order (first-defined, first-reported), not severity order. -/
theorem dangerCheck_risks_eq_specScan (command : String) :
    (dangerCheck command).risks = specScan dangerousPatterns command :=
  filter_map_eq_specScan dangerousPatterns command

/-- Claim C2: on the exact string "rm -rf /" the classifier returns
exactly two findings, first the critical root-filesystem finding, then
the high recursive-delete finding; no other signature matches. -/
theorem dangerCheck_rm_rf_root :
    (dangerCheck "rm -rf /").risks =
      [RiskFinding.mk Risk.critical "Deletes root filesystem",
       RiskFinding.mk Risk.high "Recursive force delete without confirmation"] := by
  decide

/-- Claim C3, counterexample: on the input "chmod -R 777" the chmod
signature matches, and the produced finding's reason is
"Removes all file permissions security", which differs from the
claimed reason "Removes all file permission security". -/
theorem chmod_reason_differs :
    test reChmod ("chmod -R 777").data = true ∧
    risksOf "chmod -R 777" =
      [RiskFinding.mk Risk.high "Removes all file permissions security"] ∧
    ("Removes all file permissions security" =
        "Removes all file permission security" → False) := by
  decide

/-- Claim C3, amended: for every command matched by the `chmod -R 777`
signature, the risks list contains the finding with riskLevel high and
reason exactly "Removes all file permissions security". -/
theorem chmod_match_finding (cmd : String)
    (h : test reChmod cmd.data = true) :
    RiskFinding.mk Risk.high "Removes all file permissions security" ∈
      (dangerCheck cmd).risks :=
  finding_mem_risksOf
    (DangerSignature.mk reChmod Risk.high "Removes all file permissions security")
    cmd (by simp [dangerousPatterns]) h

/-- Witness for the amended C3 at the concrete input "chmod -R 777". -/
theorem chmod_match_finding_witness :
    RiskFinding.mk Risk.high "Removes all file permissions security" ∈
      (dangerCheck "chmod -R 777").risks :=
  chmod_match_finding "chmod -R 777" (by decide)

/-- Claim C8: the classifier is deterministic; two invocations on the
same input yield identical results. -/
theorem dangerCheck_deterministic (a b : String) (h : a = b) :
    dangerCheck a = dangerCheck b := by rw [h]

/-- Witness for C8 at the concrete input "rm -rf /tmp". -/
theorem dangerCheck_deterministic_witness :
    dangerCheck "rm -rf /tmp" = dangerCheck "rm -rf /tmp" :=
  dangerCheck_deterministic "rm -rf /tmp" "rm -rf /tmp" rfl

/-- Claim C10: no finding returned by the classifier ever carries the
low risk level, because no signature of the fixed table does. -/
theorem dangerCheck_no_low_risk (cmd : String) (f : RiskFinding)
    (hf : f ∈ (dangerCheck cmd).risks) : f.risk ≠ Risk.low := by
  have hf' : f ∈ risksOf cmd := hf
  simp only [risksOf, List.mem_map, List.mem_filter] at hf'
  obtain ⟨sig, ⟨hmem, _⟩, rfl⟩ := hf'
  simp only [dangerousPatterns, List.mem_cons, List.not_mem_nil, or_false] at hmem
  rcases hmem with rfl | rfl | rfl | rfl | rfl | rfl | rfl | rfl | rfl | rfl | rfl <;> decide

/-- Witness for C10 at the concrete input "rm -rf x" and its finding. -/
theorem dangerCheck_no_low_risk_witness :
    (RiskFinding.mk Risk.high "Recursive force delete without confirmation").risk ≠
      Risk.low :=
  dangerCheck_no_low_risk "rm -rf x"
    (RiskFinding.mk Risk.high "Recursive force delete without confirmation")
    (by decide)

/-- Claim C4: when findings are non-empty the guidance restates the
command, lists every finding as a line with the upper-cased risk level
in brackets followed by the reason, in findings order, followed by the
four fixed section headers; when findings are empty the guidance is the
fixed no-danger acknowledgment restating the command plus the four
fixed generic reminders. -/
theorem dangerCheck_guidance (command : String) :
    ((dangerCheck command).risks ≠ [] →
      (dangerCheck command).instruction =
        "⚠️ DANGER DETECTED in command: " ++ command ++
        "\n\nRisks found:\n" ++
        String.intercalate "\n" ((dangerCheck command).risks.map
          (fun r => "- [" ++ r.risk.upper ++ "] " ++ r.reason)) ++
        "\n\nProvide:\n" ++
        "1. **Why It\x27s Dangerous**: Detailed explanation of what could go wrong\n" ++
        "2. **Safer Alternative**: A safer way to accomplish the same goal\n" ++
        "3. **If You Must Proceed**: Precautions and backup steps\n" ++
        "4. **Recovery Options**: What to do if something goes wrong") ∧
    ((dangerCheck command).risks = [] →
      (dangerCheck command).instruction =
        "✅ No obvious dangers detected in: " ++ command ++
        "\n\nHowever, always:\n" ++
        "1. Understand what a command does before running it\n" ++
        "2. Test with dry-run flags when available\n" ++
        "3. Have backups for important data\n" ++
        "4. Use sudo only when necessary") := by
  constructor
  · intro h
    have h' : risksOf command ≠ [] := h
    have hp : 0 < (risksOf command).length := List.length_pos.mpr h'
    simp [dangerCheck, dangerText, hp]
  · intro h
    have h' : risksOf command = [] := h
    simp [dangerCheck, safeText, h']

/-- Witness for C4: both guidance branches at concrete inputs. -/
theorem dangerCheck_guidance_witness :
    ((dangerCheck "rm -rf /").instruction =
      "⚠️ DANGER DETECTED in command: " ++ "rm -rf /" ++
      "\n\nRisks found:\n" ++
      String.intercalate "\n" ((dangerCheck "rm -rf /").risks.map
        (fun r => "- [" ++ r.risk.upper ++ "] " ++ r.reason)) ++
      "\n\nProvide:\n" ++
      "1. **Why It\x27s Dangerous**: Detailed explanation of what could go wrong\n" ++
      "2. **Safer Alternative**: A safer way to accomplish the same goal\n" ++
      "3. **If You Must Proceed**: Precautions and backup steps\n" ++
      "4. **Recovery Options**: What to do if something goes wrong") ∧
    ((dangerCheck "ls -la").instruction =
      "✅ No obvious dangers detected in: " ++ "ls -la" ++
      "\n\nHowever, always:\n" ++
      "1. Understand what a command does before running it\n" ++
      "2. Test with dry-run flags when available\n" ++
      "3. Have backups for important data\n" ++
      "4. Use sudo only when necessary") :=
  ⟨(dangerCheck_guidance "rm -rf /").1 (by decide),
   (dangerCheck_guidance "ls -la").2 (by decide)⟩

/-- Claim C5: every command containing the exact fork-bomb idiom as a
substring is flagged: `hasDanger` is true and the risks list contains
the critical fork-bomb finding. -/
theorem fork_bomb_flagged (cmd : String) (pre suf : List Char)
    (h : cmd.data = pre ++ ((":()\x7b :|:& \x7d;:").data ++ suf)) :
    (dangerCheck cmd).hasDanger = true ∧
    RiskFinding.mk Risk.critical "Fork bomb - crashes system" ∈
      (dangerCheck cmd).risks := by
  have hm : matchPre reFork (":()\x7b :|:& \x7d;:").data = true := by decide
  have ht : test reFork cmd.data = true := by
    rw [h]; exact test_of_middle reFork _ pre suf hm
  have hmem :
      RiskFinding.mk Risk.critical "Fork bomb - crashes system" ∈ risksOf cmd :=
    finding_mem_risksOf
      (DangerSignature.mk reFork Risk.critical "Fork bomb - crashes system")
      cmd (by simp [dangerousPatterns]) ht
  exact ⟨hasDanger_of_mem cmd _ hmem, hmem⟩

/-- Witness for C5 at the bare fork-bomb string itself. -/
theorem fork_bomb_flagged_witness :
    (dangerCheck ":()\x7b :|:& \x7d;:").hasDanger = true ∧
    RiskFinding.mk Risk.critical "Fork bomb - crashes system" ∈
      (dangerCheck ":()\x7b :|:& \x7d;:").risks :=
  fork_bomb_flagged ":()\x7b :|:& \x7d;:" [] [] (by simp)

/-- Claim C6: the curl-pipe-bash example yields exactly one finding,
the high remote-script finding; no other signature matches. -/
theorem dangerCheck_curl_pipe_bash :
    (dangerCheck "curl http://example.com/install.sh | bash").risks =
      [RiskFinding.mk Risk.high "Executes remote script without review"] := by
  decide

/-- Claim C7: the classifier is total — it is a function returning a
well-formed result echoing its input for every string — and on the
empty string and on "ls -la" it reports no danger and no findings. -/
theorem dangerCheck_total :
    (∀ command : String, (dangerCheck command).command = command ∧
      (dangerCheck command).type = "danger_check") ∧
    (dangerCheck "").hasDanger = false ∧ (dangerCheck "").risks = [] ∧
    (dangerCheck "ls -la").hasDanger = false ∧
    (dangerCheck "ls -la").risks = [] :=
  ⟨fun _ => ⟨rfl, rfl⟩, by decide, by decide, by decide, by decide⟩

/-- Claim C9: the root-delete signature fires on every command that
contains "rm -rf /" as a substring, so also on recursive deletes of
subdirectories of the root such as "rm -rf /home/user", which receives
both the critical root finding and the generic high finding. -/
theorem rm_root_fires_on_subpaths :
    (∀ (cmd : String) (pre suf : List Char),
        cmd.data = pre ++ (("rm -rf /").data ++ suf) →
        RiskFinding.mk Risk.critical "Deletes root filesystem" ∈
          (dangerCheck cmd).risks ∧
        RiskFinding.mk Risk.high "Recursive force delete without confirmation" ∈
          (dangerCheck cmd).risks) ∧
    (dangerCheck "rm -rf /home/user").risks =
      [RiskFinding.mk Risk.critical "Deletes root filesystem",
       RiskFinding.mk Risk.high "Recursive force delete without confirmation"] := by
  constructor
  · intro cmd pre suf h
    have hm1 : matchPre reRmRoot ("rm -rf /").data = true := by decide
    have hm2 : matchPre reRmRf ("rm -rf /").data = true := by decide
    have ht1 : test reRmRoot cmd.data = true := by
      rw [h]; exact test_of_middle _ _ pre suf hm1
    have ht2 : test reRmRf cmd.data = true := by
      rw [h]; exact test_of_middle _ _ pre suf hm2
    exact ⟨finding_mem_risksOf
        (DangerSignature.mk reRmRoot Risk.critical "Deletes root filesystem")
        cmd (by simp [dangerousPatterns]) ht1,
      finding_mem_risksOf
        (DangerSignature.mk reRmRf Risk.high
          "Recursive force delete without confirmation")
        cmd (by simp [dangerousPatterns]) ht2⟩
  · decide

/-- Witness for C9 at the concrete input "rm -rf /home/user". -/
theorem rm_root_fires_on_subpaths_witness :
    RiskFinding.mk Risk.critical "Deletes root filesystem" ∈
      (dangerCheck "rm -rf /home/user").risks ∧
    RiskFinding.mk Risk.high "Recursive force delete without confirmation" ∈
      (dangerCheck "rm -rf /home/user").risks :=
  rm_root_fires_on_subpaths.1 "rm -rf /home/user" [] ("home/user").data (by decide)
